import Mathlib

/-!
Verification of the chatwork-go transport pipeline against its
natural-language specification.

The definitions below are a shallow embedding of the request-construction
and response-handling pipeline of the repository (file chatwork.go, plus
the messages service). HTTP bodies are modelled as plain strings; the
behavior of the external libraries encoding/json and go-querystring is
abstracted into explicit function parameters or small modelled functions,
each marked in its doc comment.
-/

namespace Chatwork

/-- An inbound HTTP response, flattened: the method and URL of the
originating outbound request (Go keeps a back-pointer from the response to
its request), the status code, and the full body bytes as a string. The
in-memory body makes reading infallible, so the ReadAll error branch of the
Go code does not arise in the model. -/
structure HTTPResponse where
  reqMethod : String
  reqURL : String
  statusCode : Int
  body : String
deriving Repr, DecidableEq

/-- The structured API error of chatwork.go. The Go struct keeps the whole
http.Response; the model keeps the fields its rendering and the claims
use: originating method and URL, status code, and the ordered list of
server-supplied error messages. -/
structure APIError where
  reqMethod : String
  reqURL : String
  statusCode : Int
  errors : List String
deriving Repr, DecidableEq

/-- Outcome of json.Unmarshal applied to an error body, abstracted: either
the body parsed and yielded the list held under the errors key (empty when
the key is absent), or parsing failed with an error whose rendering is the
given message. CheckResponse is parameterized over this function, since
encoding/json is an external library. -/
inductive UnmarshalOutcome where
  | ok (errors : List String)
  | fail (msg : String)
deriving Repr, DecidableEq

/-- Modelled from the Go standard library strings.Join: the first element,
then separator and element for each remaining element; empty input gives
the empty string. -/
def stringsJoin (sep : String) : List String → String
  | [] => ""
  | s :: rest => s ++ joinRest sep rest
where
  joinRest (sep : String) : List String → String
    | [] => ""
    | x :: xs => sep ++ (x ++ joinRest sep xs)

/-- CheckResponse from chatwork.go: a status code in [200, 299] is success
(no error); any other status produces an APIError carrying the originating
method and URL and the status code. The body is fully read and handed to
json.Unmarshal (abstracted as u); on parse failure a single synthetic
message is substituted, matching fmt.Sprintf with the literal format. -/
def CheckResponse (u : String → UnmarshalOutcome) (r : HTTPResponse) : Option APIError :=
  if 200 ≤ r.statusCode ∧ r.statusCode ≤ 299 then none
  else
    some { reqMethod := r.reqMethod, reqURL := r.reqURL, statusCode := r.statusCode,
           errors :=
             match u r.body with
             | .ok es => es
             | .fail m => ["Failed to parse error response: " ++ m] }

/-- The Error method of APIError: fmt.Sprintf of method, URL, status and
the comma-and-space join of the messages, modelled as the corresponding
concatenation (verb %v on a string is the string, %d on an int is its
decimal rendering). -/
def APIError.render (e : APIError) : String :=
  e.reqMethod ++ " " ++ e.reqURL ++ ": " ++ toString e.statusCode ++ " " ++
    stringsJoin ", " e.errors

/-- Spec-side join: messages joined with a comma and a space between
consecutive elements, written as direct recursion to be compared with the
source-side stringsJoin. -/
def commaSpaceJoin : List String → String
  | [] => ""
  | [s] => s
  | s :: s2 :: rest => s ++ ", " ++ commaSpaceJoin (s2 :: rest)

theorem strAppend_assoc (a b c : String) : a ++ b ++ c = a ++ (b ++ c) := by
  apply String.ext
  simp [String.data_append]

theorem strAppend_empty (a : String) : a ++ "" = a := by
  apply String.ext
  simp [String.data_append]

theorem stringsJoin_eq_commaSpaceJoin (l : List String) :
    stringsJoin ", " l = commaSpaceJoin l := by
  induction l with
  | nil => rfl
  | cons s rest ih =>
    cases rest with
    | nil => simp [stringsJoin, stringsJoin.joinRest, commaSpaceJoin, strAppend_empty]
    | cons x xs =>
      have hrest : stringsJoin ", " (x :: xs) = commaSpaceJoin (x :: xs) := ih
      simp only [stringsJoin, stringsJoin.joinRest, commaSpaceJoin] at hrest ⊢
      rw [hrest, ← strAppend_assoc]

/-- Outcome of a json.Decoder Decode call on the body stream, abstracted:
eof is exactly the io.EOF error (end of input before any value), ok means a
value was decoded into the destination, fail is any other decode error with
the given message. -/
inductive DecodeOutcome where
  | eof
  | ok
  | fail (msg : String)
deriving Repr, DecidableEq

/-- Abstract model of a json.Decoder over a body string: the outcome of
the first Decode call and the number of body bytes it consumed from the
stream. encoding/json is an external library, so processResponseBody and
Do are parameterized over this. -/
structure JsonDecoder where
  run : String → DecodeOutcome × Nat

/-- The destination value v handed to Do and processResponseBody. A writer
destination implements io.Writer and takes the raw-bytes passthrough path;
its writeErr field, when present, makes every Write call fail with that
message (modelling a failing writer). A structured destination is any
non-writer JSON target. -/
inductive Dest where
  | writer (writeErr : Option String)
  | structured
deriving Repr, DecidableEq

/-- Observable effects of processResponseBody: bytes written into a writer
destination (none when the destination is not a writer), whether the
decoder stored a value into a structured destination (false leaves it at
its zero value), and how many body bytes were consumed from the stream. -/
structure PRBTrace where
  received : Option String
  destTouched : Bool
  consumed : Nat
deriving Repr, DecidableEq

/-- processResponseBody from chatwork.go. A writer destination gets the
whole body streamed in by io.Copy with no JSON interpretation; a Copy
failure is wrapped as a copy error (the failing-writer model fails on the
first write, so the destination received nothing; Copy had already read
the body chunk, modelled as full consumption). Otherwise the body is
JSON-decoded; an outcome equal to io.EOF is returned as success, any other
decode error is returned as is. -/
def processResponseBody (dec : JsonDecoder) (v : Dest) (body : String) :
    Option String × PRBTrace :=
  match v with
  | .writer none =>
      (none, { received := some body, destTouched := false, consumed := body.length })
  | .writer (some e) =>
      (some ("failed to copy response body: " ++ e),
       { received := some "", destTouched := false, consumed := body.length })
  | .structured =>
      match dec.run body with
      | (.eof, n) => (none, { received := none, destTouched := false, consumed := n })
      | (.ok, n) => (none, { received := none, destTouched := true, consumed := n })
      | (.fail m, n) => (some m, { received := none, destTouched := false, consumed := n })

/-- Rate limit information of the response envelope. newResponse leaves it
zero-valued: no code path parses rate limit headers. -/
structure RateLimit where
  limit : Int
  remaining : Int
  reset : Int
deriving Repr, DecidableEq

/-- The Response envelope returned by Do: the raw response plus the (always
zero-valued) rate limit record. -/
structure Envelope where
  resp : HTTPResponse
  rateLimit : RateLimit
deriving Repr, DecidableEq

/-- newResponse from chatwork.go: wraps the raw response; rate limit
parsing is not implemented, so the record stays zero. -/
def newResponse (r : HTTPResponse) : Envelope :=
  { resp := r, rateLimit := { limit := 0, remaining := 0, reset := 0 } }

/-- The error returned by Do: either the structured API error from
CheckResponse or a body-processing error with the given message. -/
inductive DoError where
  | api (e : APIError)
  | decode (msg : String)
deriving Repr, DecidableEq

/-- Observable body-resource effects of one Do call: total body bytes
consumed from the stream, whether the body was closed (the Go code defers
resp.Body.Close, which runs on every return path), plus the
processResponseBody effects. -/
structure DoTrace where
  consumed : Nat
  closed : Bool
  received : Option String
  destTouched : Bool
deriving Repr, DecidableEq

/-- Result of Do: the envelope (always present once a response arrived;
the transport-failure path, which returns before any envelope exists, is
outside this model), the returned error, and the body trace. -/
structure DoResult where
  envelope : Envelope
  err : Option DoError
  trace : DoTrace
deriving Repr, DecidableEq

/-- Do from chatwork.go, from the point where the transport has delivered
a response. CheckResponse classifies first (its ReadAll consumes the whole
body on the error path); then the body is processed unless the destination
is nil or the status is 204 No Content (the Go guard v != nil and status
!= 204, written here with the condition flipped into a positive if). The
deferred Close marks every path closed. -/
def Do (u : String → UnmarshalOutcome) (dec : JsonDecoder)
    (r : HTTPResponse) (v : Option Dest) : DoResult :=
  let response := newResponse r
  match CheckResponse u r with
  | some e =>
      { envelope := response, err := some (DoError.api e),
        trace := { consumed := r.body.length, closed := true,
                   received := none, destTouched := false } }
  | none =>
      match v with
      | some dest =>
          if r.statusCode = 204 then
            { envelope := response, err := none,
              trace := { consumed := 0, closed := true,
                         received := none, destTouched := false } }
          else
            let pr := processResponseBody dec dest r.body
            { envelope := response, err := pr.1.map DoError.decode,
              trace := { consumed := pr.2.consumed, closed := true,
                         received := pr.2.received, destTouched := pr.2.destTouched } }
      | none =>
          { envelope := response, err := none,
            trace := { consumed := 0, closed := true,
                       received := none, destTouched := false } }

/-- A parsed base URL, kept as scheme, host and path (the fields the URL
joining logic of the client touches; the default base has no query or
fragment). -/
structure BaseURL where
  scheme : String
  host : String
  path : String
deriving Repr, DecidableEq

/-- Rendering of a base URL, as url.URL String produces for scheme, host
and path components. -/
def BaseURL.render (b : BaseURL) : String :=
  b.scheme ++ "://" ++ b.host ++ b.path

/-- Modelled from the Go standard library strings.TrimRight with cutset
"/": removes every trailing slash. -/
def trimRightSlash (s : String) : String :=
  String.mk ((s.toList.reverse.dropWhile (fun c => c = '/')).reverse)

/-- Test for strings.HasPrefix with the one-character prefix slash,
computed on the character list. -/
def startsWithSlash (s : String) : Bool :=
  match s.toList with
  | [] => false
  | c :: _ => c = '/'

/-- URL joining of NewRequestWithContext in chatwork.go: trailing slashes
stripped from the rendered base, a leading slash added to the relative
path when absent, then plain concatenation. The subsequent url.Parse and
String round trip is the identity on such well-formed URLs and is not
modelled. -/
def buildJSONURL (base urlStr : String) : String :=
  let b := trimRightSlash base
  let p := if startsWithSlash urlStr then urlStr else "/" ++ urlStr
  b ++ p

/-- The portion of a path up to and including its last slash; the whole
path collapses to the empty string when it has no slash. This is the merge
step base[0..LastIndex(base, slash)+1] of net/url path resolution. -/
def baseUpToLastSlash (s : String) : String :=
  String.mk ((s.toList.reverse.dropWhile (fun c => c ≠ '/')).reverse)

/-- Modelled from the Go standard library net/url: URL.Parse applied to a
path-only relative reference resolves it against the base path per RFC
3986 section 5.3 — an absolute-path reference replaces the base path
wholesale, otherwise the reference is merged after the last slash of the
base path. Restricted to references without dot segments, query or
fragment, which covers every path this client builds. -/
def resolveRefPath (basePath ref : String) : String :=
  if ref = "" then basePath
  else if startsWithSlash ref then ref
  else baseUpToLastSlash basePath ++ ref

/-- URL joining of NewFormRequestWithContext in chatwork.go, which calls
BaseURL.Parse on the relative path: relative-reference resolution, not
concatenation. -/
def buildFormURL (base : BaseURL) (urlStr : String) : String :=
  base.scheme ++ "://" ++ base.host ++ resolveRefPath base.path urlStr

/-- The client configuration the request builders read: user agent string,
API token, and base URL. -/
structure ClientCfg where
  userAgent : String
  token : String
  baseURL : BaseURL
deriving Repr, DecidableEq

/-- An outbound request body: JSON bytes produced by encoding/json with
HTML escaping disabled (the bytes are taken as given, since arbitrary Go
value encoding is external), or the field list a form body is encoded
from by go-querystring and url.Values Encode. -/
inductive Payload where
  | json (bytes : String)
  | form (fields : List (String × String))
deriving Repr, DecidableEq

/-- An outbound HTTP request: method, final URL, header list and optional
body. -/
structure OutRequest where
  method : String
  url : String
  headers : List (String × String)
  body : Option Payload
deriving Repr, DecidableEq

/-- Header Set of net/http: replaces any existing values for the key with
the single given value. Keys are kept as written (MIME canonicalization
is immaterial here since every key is set and read with the same
spelling). -/
def setHeader (hs : List (String × String)) (k v : String) : List (String × String) :=
  hs.filter (fun p => p.1 ≠ k) ++ [(k, v)]

/-- Header Get: the value stored for the key, if any. -/
def headerGet (hs : List (String × String)) (k : String) : Option String :=
  (hs.find? (fun p => p.1 = k)).map Prod.snd

/-- NewRequestWithContext from chatwork.go: JSON mode. The URL is built by
concatenation joining; Content-Type application/json is set only when a
body is present; Accept, User-Agent and X-ChatWorkToken are always set.
The body parameter carries the already-encoded JSON bytes (none models the
nil body). -/
def NewRequestWithContext (c : ClientCfg) (method urlStr : String)
    (body : Option String) : OutRequest :=
  let url := buildJSONURL c.baseURL.render urlStr
  let hs := match body with
    | some _ => setHeader [] "Content-Type" "application/json"
    | none => []
  let hs := setHeader hs "Accept" "application/json"
  let hs := setHeader hs "User-Agent" c.userAgent
  let hs := setHeader hs "X-ChatWorkToken" c.token
  { method := method, url := url, headers := hs, body := body.map Payload.json }

/-- NewFormRequestWithContext from chatwork.go: form mode. The URL is
built by BaseURL.Parse relative resolution; Content-Type
application/x-www-form-urlencoded is set only when a body is present; the
three common headers are always set. The body parameter carries the field
list the form body is encoded from. -/
def NewFormRequestWithContext (c : ClientCfg) (method urlStr : String)
    (body : Option (List (String × String))) : OutRequest :=
  let url := buildFormURL c.baseURL urlStr
  let hs := match body with
    | some _ => setHeader [] "Content-Type" "application/x-www-form-urlencoded"
    | none => []
  let hs := setHeader hs "Accept" "application/json"
  let hs := setHeader hs "User-Agent" c.userAgent
  let hs := setHeader hs "X-ChatWorkToken" c.token
  { method := method, url := url, headers := hs, body := body.map Payload.form }

/-- The default base URL constant of the package,
https://api.chatwork.com/v2, in parsed form. -/
def defaultBase : BaseURL :=
  { scheme := "https", host := "api.chatwork.com", path := "/v2" }

/-- MessageCreateParams of the messages service: the message body (url tag
body) and the self unread flag (url tag self_unread with omitempty). -/
structure MessageCreateParams where
  body : String
  self_unread : Bool
deriving Repr, DecidableEq

/-- Modelled from the go-querystring library applied to
MessageCreateParams, followed by the alphabetical key ordering of
url.Values Encode: the body field always, the self_unread field only when
true (omitempty drops the zero value false). Values are kept unescaped;
percent-encoding is external and injective, so it does not affect any
equality proved here. -/
def MessageCreateParams.formFields (p : MessageCreateParams) : List (String × String) :=
  [("body", p.body)] ++ (if p.self_unread then [("self_unread", "true")] else [])

/-- Result shape of MessagesService Create: the created-message result
pointer (none when an error made Create return nil; some b when returned,
with b recording whether the decoder populated it), the response envelope
pointer, and the error. -/
structure CreateOutcome where
  result : Option Bool
  envelope : Option Envelope
  err : Option DoError
deriving Repr, DecidableEq

/-- Create of the messages service: builds the form request POST
rooms/roomID/messages from the params, dispatches it through the given
transport, runs Do with a structured destination for the created-message
response, and returns nil result on error. The transport function stands
for the HTTP client returning a response (the transport-failure path is
outside this model). -/
def MessagesService.Create (transport : OutRequest → HTTPResponse)
    (u : String → UnmarshalOutcome) (dec : JsonDecoder) (c : ClientCfg)
    (roomID : Int) (params : MessageCreateParams) : CreateOutcome :=
  let path := "rooms/" ++ toString roomID ++ "/messages"
  let req := NewFormRequestWithContext c "POST" path (some params.formFields)
  let resp := transport req
  let dr := Do u dec resp (some Dest.structured)
  match dr.err with
  | some e => { result := none, envelope := some dr.envelope, err := some e }
  | none => { result := some dr.trace.destTouched, envelope := some dr.envelope, err := none }

/-- SendMessage of the messages service: builds MessageCreateParams with
only the Body field set (the omitted SelfUnread field takes the Go zero
value false) and delegates to Create. -/
def MessagesService.SendMessage (transport : OutRequest → HTTPResponse)
    (u : String → UnmarshalOutcome) (dec : JsonDecoder) (c : ClientCfg)
    (roomID : Int) (body : String) : CreateOutcome :=
  MessagesService.Create transport u dec c roomID { body := body, self_unread := false }

/-- A concrete unmarshal model that always reports a parse failure, as
encoding/json does on any non-JSON body (used to instantiate quantified
theorems at concrete inputs). -/
def uParseFail : String → UnmarshalOutcome :=
  fun _ => .fail "unexpected end of JSON input"

/-- A concrete unmarshal model that always parses successfully with no
errors key. -/
def uOk : String → UnmarshalOutcome :=
  fun _ => .ok []

/-- A concrete decoder model: io.EOF on an empty body, a decoded value
consuming the whole body otherwise. -/
def decStub : JsonDecoder :=
  ⟨fun s => if s = "" then (DecodeOutcome.eof, 0) else (DecodeOutcome.ok, s.length)⟩

/-- C1: for every response with status code in [200,299], CheckResponse
returns no error; for every other status code it returns a non-nil
structured API error whose status field equals the status of the
response. -/
theorem checkResponse_status_rule (u : String → UnmarshalOutcome) (r : HTTPResponse) :
    (200 ≤ r.statusCode ∧ r.statusCode ≤ 299 → CheckResponse u r = none) ∧
    (¬ (200 ≤ r.statusCode ∧ r.statusCode ≤ 299) →
      ∃ e : APIError, CheckResponse u r = some e ∧ e.statusCode = r.statusCode) := by
  constructor
  · intro h
    unfold CheckResponse
    rw [if_pos h]
  · intro h
    unfold CheckResponse
    rw [if_neg h]
    exact ⟨_, rfl, rfl⟩

/-- Witness for C1 at status 200 and status 404. -/
theorem checkResponse_status_rule_witness :
    CheckResponse uOk { reqMethod := "GET", reqURL := "/me", statusCode := 200, body := "{}" }
      = none ∧
    ∃ e : APIError,
      CheckResponse uOk { reqMethod := "GET", reqURL := "/me", statusCode := 404, body := "" }
        = some e ∧ e.statusCode = 404 :=
  ⟨(checkResponse_status_rule uOk _).1 (by decide),
   (checkResponse_status_rule uOk
      { reqMethod := "GET", reqURL := "/me", statusCode := 404, body := "" }).2 (by decide)⟩

/-- C2: for every non-2xx response whose body json.Unmarshal rejects
(including an empty body), CheckResponse still returns a non-nil error
whose message list is exactly the single synthetic parse-failure message,
hence non-empty. -/
theorem checkResponse_synthetic_message (u : String → UnmarshalOutcome)
    (r : HTTPResponse) (m : String)
    (hs : ¬ (200 ≤ r.statusCode ∧ r.statusCode ≤ 299))
    (hp : u r.body = .fail m) :
    ∃ e : APIError, CheckResponse u r = some e ∧
      e.errors = ["Failed to parse error response: " ++ m] ∧ e.errors ≠ [] := by
  unfold CheckResponse
  rw [if_neg hs]
  refine ⟨_, rfl, ?_, ?_⟩ <;> simp [hp]

/-- Witness for C2 at a 500 response with a non-JSON body. -/
theorem checkResponse_synthetic_message_witness :
    uParseFail "<html>oops</html>" = .fail "unexpected end of JSON input" ∧
    ∃ e : APIError,
      CheckResponse uParseFail
        { reqMethod := "GET", reqURL := "/rooms", statusCode := 500, body := "<html>oops</html>" }
        = some e ∧
      e.errors = ["Failed to parse error response: unexpected end of JSON input"] ∧
      e.errors ≠ [] :=
  ⟨rfl,
   checkResponse_synthetic_message uParseFail
     { reqMethod := "GET", reqURL := "/rooms", statusCode := 500, body := "<html>oops</html>" }
     "unexpected end of JSON input" (by decide) rfl⟩

/-- C3: the rendering of a structured API error is the single line method,
space, URL, colon space, status, space, messages joined with comma and
space in server order; at the concrete POST /rooms 400 example it equals
exactly the expected line; and rendering is deterministic. -/
theorem apiError_render_spec :
    (∀ e : APIError, e.render =
      e.reqMethod ++ " " ++ e.reqURL ++ ": " ++ toString e.statusCode ++ " " ++
        commaSpaceJoin e.errors) ∧
    APIError.render
      { reqMethod := "POST", reqURL := "/rooms", statusCode := 400,
        errors := ["Invalid parameters", "Room name is required"] } =
      "POST /rooms: 400 Invalid parameters, Room name is required" ∧
    (∀ e₁ e₂ : APIError, e₁ = e₂ → e₁.render = e₂.render) := by
  refine ⟨?_, ?_, ?_⟩
  · intro e
    unfold APIError.render
    rw [stringsJoin_eq_commaSpaceJoin]
  · decide
  · intro e₁ e₂ h
    rw [h]

/-- Witness for C3, instantiating all three parts at the POST /rooms 400
error. -/
theorem apiError_render_spec_witness :
    (APIError.render
      { reqMethod := "POST", reqURL := "/rooms", statusCode := 400,
        errors := ["Invalid parameters", "Room name is required"] } =
      "POST" ++ " " ++ "/rooms" ++ ": " ++ toString (400 : Int) ++ " " ++
        commaSpaceJoin ["Invalid parameters", "Room name is required"]) ∧
    APIError.render
      { reqMethod := "POST", reqURL := "/rooms", statusCode := 400,
        errors := ["Invalid parameters", "Room name is required"] } =
      "POST /rooms: 400 Invalid parameters, Room name is required" :=
  ⟨apiError_render_spec.1
     { reqMethod := "POST", reqURL := "/rooms", statusCode := 400,
       errors := ["Invalid parameters", "Room name is required"] },
   apiError_render_spec.2.2
     { reqMethod := "POST", reqURL := "/rooms", statusCode := 400,
       errors := ["Invalid parameters", "Room name is required"] }
     { reqMethod := "POST", reqURL := "/rooms", statusCode := 400,
       errors := ["Invalid parameters", "Room name is required"] } rfl ▸
     apiError_render_spec.2.1⟩

/-- C4: for every response with status 204 and every destination value
(nil included), Do skips decoding entirely, never reads the body, and
returns the envelope with no error. -/
theorem do_noContent_skips_decode (u : String → UnmarshalOutcome) (dec : JsonDecoder)
    (r : HTTPResponse) (v : Option Dest) (h : r.statusCode = 204) :
    (Do u dec r v).envelope = newResponse r ∧
    (Do u dec r v).err = none ∧
    (Do u dec r v).trace.consumed = 0 ∧
    (Do u dec r v).trace.received = none ∧
    (Do u dec r v).trace.destTouched = false := by
  have hc : CheckResponse u r = none := by
    unfold CheckResponse
    rw [if_pos (by rw [h]; exact ⟨by norm_num, by norm_num⟩)]
  cases v with
  | none => simp [Do, hc]
  | some dest => simp [Do, hc, h]

/-- Witness for C4 at a 204 response with a non-empty body and a
structured destination. -/
theorem do_noContent_skips_decode_witness :
    (Do uOk decStub { reqMethod := "DELETE", reqURL := "/r", statusCode := 204, body := "x" }
        (some Dest.structured)).err = none ∧
    (Do uOk decStub { reqMethod := "DELETE", reqURL := "/r", statusCode := 204, body := "x" }
        (some Dest.structured)).trace.consumed = 0 :=
  ⟨(do_noContent_skips_decode uOk decStub
      { reqMethod := "DELETE", reqURL := "/r", statusCode := 204, body := "x" }
      (some Dest.structured) rfl).2.1,
   (do_noContent_skips_decode uOk decStub
      { reqMethod := "DELETE", reqURL := "/r", statusCode := 204, body := "x" }
      (some Dest.structured) rfl).2.2.1⟩

/-- C5: for every 2xx non-204 response with an empty body and a structured
destination, Do returns no error and the destination stays at its zero
value, given the io.EOF behavior of the JSON decoder on empty input. -/
theorem do_emptyBody_zeroValue (u : String → UnmarshalOutcome) (dec : JsonDecoder)
    (r : HTTPResponse)
    (h2 : 200 ≤ r.statusCode ∧ r.statusCode ≤ 299) (h204 : r.statusCode ≠ 204)
    (hb : r.body = "") (heof : (dec.run "").1 = DecodeOutcome.eof) :
    (Do u dec r (some Dest.structured)).err = none ∧
    (Do u dec r (some Dest.structured)).trace.destTouched = false := by
  have hc : CheckResponse u r = none := by
    unfold CheckResponse
    rw [if_pos h2]
  rcases hdec : dec.run r.body with ⟨o, n⟩
  have ho : o = DecodeOutcome.eof := by
    rw [hb] at hdec
    rw [hdec] at heof
    exact heof
  subst ho
  simp [Do, hc, h204, processResponseBody, hdec]

/-- Witness for C5 at a 200 response with an empty body. -/
theorem do_emptyBody_zeroValue_witness :
    (Do uOk decStub { reqMethod := "PUT", reqURL := "/r", statusCode := 200, body := "" }
        (some Dest.structured)).err = none ∧
    (Do uOk decStub { reqMethod := "PUT", reqURL := "/r", statusCode := 200, body := "" }
        (some Dest.structured)).trace.destTouched = false :=
  do_emptyBody_zeroValue uOk decStub
    { reqMethod := "PUT", reqURL := "/r", statusCode := 200, body := "" }
    (by decide) (by decide) rfl (by decide)

/-- C6: for every success (2xx non-204) response and a writer destination,
Do streams the whole body into the destination verbatim with no error, and
a failure during the copy is surfaced as the wrapped copy error. -/
theorem do_writer_passthrough (u : String → UnmarshalOutcome) (dec : JsonDecoder)
    (r : HTTPResponse) (m : String)
    (h2 : 200 ≤ r.statusCode ∧ r.statusCode ≤ 299) (h204 : r.statusCode ≠ 204) :
    ((Do u dec r (some (Dest.writer none))).err = none ∧
     (Do u dec r (some (Dest.writer none))).trace.received = some r.body) ∧
    (Do u dec r (some (Dest.writer (some m)))).err =
      some (DoError.decode ("failed to copy response body: " ++ m)) := by
  have hc : CheckResponse u r = none := by
    unfold CheckResponse
    rw [if_pos h2]
  refine ⟨⟨?_, ?_⟩, ?_⟩ <;> simp [Do, hc, h204, processResponseBody]

/-- Witness for C6 at a 200 response with body abc, for both a succeeding
and a failing writer. -/
theorem do_writer_passthrough_witness :
    ((Do uOk decStub { reqMethod := "GET", reqURL := "/f", statusCode := 200, body := "abc" }
        (some (Dest.writer none))).err = none ∧
     (Do uOk decStub { reqMethod := "GET", reqURL := "/f", statusCode := 200, body := "abc" }
        (some (Dest.writer none))).trace.received = some "abc") ∧
    (Do uOk decStub { reqMethod := "GET", reqURL := "/f", statusCode := 200, body := "abc" }
        (some (Dest.writer (some "disk full")))).err =
      some (DoError.decode ("failed to copy response body: " ++ "disk full")) :=
  do_writer_passthrough uOk decStub
    { reqMethod := "GET", reqURL := "/f", statusCode := 200, body := "abc" }
    "disk full" (by decide) (by decide)

/-- C7: evaluation of both builders at the default base
https://api.chatwork.com/v2 and the relative path rooms/123/messages. The
JSON builder joins by slash normalization and concatenation, keeping /v2;
the form builder resolves the path as a relative reference, which drops
the /v2 segment of the base, so the two builders disagree — refuting the
claim that both modes join by stripping the trailing slash and normalizing
the leading slash. The last conjunct shows that for the form builder a
path with and without a leading slash can also yield different URLs (base
path /v2/ with a trailing slash). -/
theorem formURL_divergence_eval :
    (NewFormRequestWithContext
        { userAgent := "chatwork-go", token := "t", baseURL := defaultBase }
        "POST" "rooms/123/messages" none).url =
      "https://api.chatwork.com/rooms/123/messages" ∧
    (NewRequestWithContext
        { userAgent := "chatwork-go", token := "t", baseURL := defaultBase }
        "POST" "rooms/123/messages" none).url =
      "https://api.chatwork.com/v2/rooms/123/messages" ∧
    (NewFormRequestWithContext
        { userAgent := "chatwork-go", token := "t", baseURL := defaultBase }
        "POST" "rooms/123/messages" none).url ≠
      (NewRequestWithContext
        { userAgent := "chatwork-go", token := "t", baseURL := defaultBase }
        "POST" "rooms/123/messages" none).url ∧
    (NewFormRequestWithContext
        { userAgent := "chatwork-go", token := "t",
          baseURL := { scheme := "https", host := "h", path := "/v2/" } }
        "GET" "rooms" none).url ≠
      (NewFormRequestWithContext
        { userAgent := "chatwork-go", token := "t",
          baseURL := { scheme := "https", host := "h", path := "/v2/" } }
        "GET" "/rooms" none).url := by
  refine ⟨by decide, by decide, by decide, by decide⟩

/-- C8: every request built by either builder carries Accept
application/json, the configured User-Agent, and the configured token in
X-ChatWorkToken; Content-Type is present exactly when a body is, with the
JSON media type in JSON mode and the form media type in form mode. -/
theorem request_headers_spec (c : ClientCfg) (method urlStr : String)
    (jb : Option String) (fb : Option (List (String × String))) :
    (headerGet (NewRequestWithContext c method urlStr jb).headers "Accept" =
        some "application/json" ∧
     headerGet (NewRequestWithContext c method urlStr jb).headers "User-Agent" =
        some c.userAgent ∧
     headerGet (NewRequestWithContext c method urlStr jb).headers "X-ChatWorkToken" =
        some c.token ∧
     headerGet (NewRequestWithContext c method urlStr jb).headers "Content-Type" =
        (if jb.isSome then some "application/json" else none)) ∧
    (headerGet (NewFormRequestWithContext c method urlStr fb).headers "Accept" =
        some "application/json" ∧
     headerGet (NewFormRequestWithContext c method urlStr fb).headers "User-Agent" =
        some c.userAgent ∧
     headerGet (NewFormRequestWithContext c method urlStr fb).headers "X-ChatWorkToken" =
        some c.token ∧
     headerGet (NewFormRequestWithContext c method urlStr fb).headers "Content-Type" =
        (if fb.isSome then some "application/x-www-form-urlencoded" else none)) := by
  cases jb <;> cases fb <;>
    simp [NewRequestWithContext, NewFormRequestWithContext, setHeader, headerGet,
      List.find?, List.filter]

theorem checkResponse_some_of_not2xx (u : String → UnmarshalOutcome) (r : HTTPResponse)
    (h : ¬ (200 ≤ r.statusCode ∧ r.statusCode ≤ 299)) :
    CheckResponse u r =
      some { reqMethod := r.reqMethod, reqURL := r.reqURL, statusCode := r.statusCode,
             errors :=
               match u r.body with
               | .ok es => es
               | .fail m => ["Failed to parse error response: " ++ m] } := by
  unfold CheckResponse
  rw [if_neg h]

/-- C9 counterexample: at a 200 response with a three-byte body and a nil
destination, Do returns having consumed zero bytes of the body, so the
body is not fully consumed before Do returns. -/
theorem do_consumption_counterexample :
    (Do uOk decStub { reqMethod := "GET", reqURL := "/rooms", statusCode := 200, body := "abc" }
        (none : Option Dest)).trace.consumed = 0 ∧
    ({ reqMethod := "GET", reqURL := "/rooms", statusCode := 200, body := "abc" }
        : HTTPResponse).body.length = 3 := by
  refine ⟨by decide, by decide⟩

/-- C9 amended: for every response received by Do, the body is released
(closed) before Do returns, regardless of outcome; and on the
error-classification path (non-2xx status) the body is additionally fully
consumed by CheckResponse. -/
theorem do_body_released (u : String → UnmarshalOutcome) (dec : JsonDecoder)
    (r : HTTPResponse) (v : Option Dest) :
    (Do u dec r v).trace.closed = true ∧
    (¬ (200 ≤ r.statusCode ∧ r.statusCode ≤ 299) →
      (Do u dec r v).trace.consumed = r.body.length) := by
  constructor
  · rcases hc : CheckResponse u r with _ | e
    · cases v with
      | none => simp [Do, hc]
      | some dest =>
          by_cases h204 : r.statusCode = 204 <;>
            simp [Do, hc, h204]
    · simp [Do, hc]
  · intro h
    simp [Do, checkResponse_some_of_not2xx u r h]

/-- Witness for C9 at a 500 response with body err. -/
theorem do_body_released_witness :
    (Do uOk decStub { reqMethod := "GET", reqURL := "/rooms", statusCode := 500, body := "err" }
        (some Dest.structured)).trace.closed = true ∧
    (Do uOk decStub { reqMethod := "GET", reqURL := "/rooms", statusCode := 500, body := "err" }
        (some Dest.structured)).trace.consumed =
      ({ reqMethod := "GET", reqURL := "/rooms", statusCode := 500, body := "err" }
        : HTTPResponse).body.length :=
  ⟨(do_body_released uOk decStub
      { reqMethod := "GET", reqURL := "/rooms", statusCode := 500, body := "err" }
      (some Dest.structured)).1,
   (do_body_released uOk decStub
      { reqMethod := "GET", reqURL := "/rooms", statusCode := 500, body := "err" }
      (some Dest.structured)).2 (by decide)⟩

/-- C10: for every transport, decoder, unmarshal model, configuration,
room ID and body string, SendMessage returns exactly the result of Create
with params holding only that body and the self unread flag false. -/
theorem sendMessage_refines_create (transport : OutRequest → HTTPResponse)
    (u : String → UnmarshalOutcome) (dec : JsonDecoder) (c : ClientCfg)
    (roomID : Int) (body : String) :
    MessagesService.SendMessage transport u dec c roomID body =
      MessagesService.Create transport u dec c roomID
        { body := body, self_unread := false } := rfl

end Chatwork
